import Mathlib

/-!
Verification of the playback-orchestration core of the rodrigo-component
repository (src/player/).  The Python source is shallowly embedded:

* pure functions become Lean functions over the same data;
* the per-object mutable attributes become explicit state records, with
  methods returning the updated state;
* side effects on external backends (MPD commands, subprocess spawn and
  terminate, database writes) become explicit event values collected in
  lists, in the order the code performs them;
* Python `%` on integers is Lean `Int.emod` (they agree for a positive
  modulus, and for negative dividends both return a value in `[0, n)`);
* the float arithmetic of the reconnect backoff is embedded in `ℚ`; every
  value the code can reach (5·1.5^k capped at 60) has a denominator that
  is a power of two and a small numerator, hence is exact in both binary
  floating point and `ℚ`.
-/

namespace Rodrigo

/-! ### Video worker: data and unwatched-video selection
(src/player/youtube_thread.py) -/

/-- A video entry as built by `YouTubeThread._get_channel_videos`:
a dict with keys `id`, `title`, `url`. -/
structure Video where
  id : String
  title : String
  url : String
deriving DecidableEq, Repr

/-- The fields of `YouTubeThread` that `_get_next_unwatched_video` reads and
writes: `current_videos`, `current_video_index`, `watched_videos`.
The Python watched set is embedded as a list with membership testing. -/
structure YTState where
  current_videos : List Video
  current_video_index : Nat
  watched_videos : List String
deriving DecidableEq, Repr

/-- The `for i in range(len(self.current_videos))` loop inside
`_get_next_unwatched_video`: starting at loop counter `i`, compute
`idx = (current + i) % len`, and return the first `idx` whose video id is
not in the watched set; `none` when the loop falls through. -/
def scanFrom (videos : List Video) (watched : List String) (current : Nat) (i : Nat) :
    Option Nat :=
  if _h : i < videos.length then
    let idx := (current + i) % videos.length
    match videos[idx]? with
    | some v => if watched.contains v.id then scanFrom videos watched current (i + 1) else some idx
    | none => none
  else
    none
termination_by videos.length - i

/-- `YouTubeThread._get_next_unwatched_video` (youtube_thread.py lines 315-332):
returns `None` on an empty list; otherwise scans forward circularly from the
current index and returns the first unwatched video, setting the index to its
position; if every video is watched, resets the index to 0 and returns the
first video.  Result: (returned video, updated thread state). -/
def get_next_unwatched_video (st : YTState) : Option Video × YTState :=
  match st.current_videos with
  | [] => (none, st)
  | v0 :: _ =>
    match scanFrom st.current_videos st.watched_videos st.current_video_index 0 with
    | some idx => (st.current_videos[idx]?, { st with current_video_index := idx })
    | none => (some v0, { st with current_video_index := 0 })

/-! ### Source manager: debounced index persistence
(src/player/source_manager.py) -/

/-- The two debounce fields of `SourceManager`:
`_pending_save_index` and `_save_scheduled`. -/
structure DebounceState where
  pending_save_index : Option Int
  save_scheduled : Bool
deriving DecidableEq, Repr

/-- The debounce fields right after `SourceManager.__init__`. -/
def debounceIdle : DebounceState := ⟨none, false⟩

/-- `SourceManager._save_current_index_to_db_sync` (lines 230-238): record the
index as pending; schedule a debounced flush (`fire_and_forget_async`) only if
none is scheduled.  The boolean reports whether a flush was scheduled by this
call. -/
def save_current_index_to_db_sync (st : DebounceState) (index : Int) :
    DebounceState × Bool :=
  let st1 : DebounceState := { st with pending_save_index := some index }
  if st1.save_scheduled then (st1, false)
  else ({ st1 with save_scheduled := true }, true)

/-- The body of `SourceManager._debounced_save` after its sleep (lines 216-228):
if an index is pending, clear the debounce state and perform one database write
of that index; otherwise just clear the scheduled flag.  The list collects the
database writes performed. -/
def debounced_save (st : DebounceState) : DebounceState × List Int :=
  match st.pending_save_index with
  | some idx => (⟨none, false⟩, [idx])
  | none => ({ st with save_scheduled := false }, [])

/-- A burst of rotations: apply `save_current_index_to_db_sync` for each index
in turn (all within one debounce window, i.e. before any flush fires),
counting how many flushes get scheduled. -/
def rotateBurst (st : DebounceState) : List Int → DebounceState × Nat
  | [] => (st, 0)
  | i :: rest =>
    let r := save_current_index_to_db_sync st i
    let r2 := rotateBurst r.1 rest
    (r2.1, (if r.2 then 1 else 0) + r2.2)

/-! ### Source manager: sources and rotation
(src/player/source_manager.py) -/

/-- `SourceType` enum. -/
inductive SourceType where
  | spotify_playlist
  | youtube_channel
deriving DecidableEq, Repr

/-- `MediaSource` dataclass: type, human-readable name, uri,
and category (`source_type`, "music" or "news"). -/
structure MediaSource where
  type : SourceType
  name : String
  uri : String
  source_type : String := "music"
deriving DecidableEq, Repr

/-- The mutable fields of `SourceManager`: the source list, the current index
(a Python `int`, so embedded as `Int`), and the two debounce fields. -/
structure SMState where
  sources : List MediaSource
  current_source_index : Int
  debounce : DebounceState
deriving DecidableEq, Repr

/-- Python list indexing `xs[i]` for `int` i: non-negative indices read from
the front, indices in `[-len, 0)` wrap from the back, anything else raises
IndexError (embedded as `none`). -/
def pyListGet {α : Type} (xs : List α) (i : Int) : Option α :=
  if 0 ≤ i then xs[i.toNat]?
  else if -(xs.length : Int) ≤ i then xs[(i + xs.length).toNat]?
  else none

/-- `SourceManager.__init__` (lines 35-57): store the sources and the starting
index, initialize the debounce fields, and reset an index `>= len(sources)`
to 0. -/
def sourceManager_init (sources : List MediaSource) (current_index : Int) : SMState :=
  let idx := if (sources.length : Int) ≤ current_index then 0 else current_index
  { sources := sources, current_source_index := idx, debounce := debounceIdle }

/-- `SourceManager.get_current_source` (lines 240-244): `None` when the source
list is empty, otherwise `self.sources[self.current_source_index]`. -/
def get_current_source (st : SMState) : Option MediaSource :=
  if st.sources.isEmpty then none
  else pyListGet st.sources st.current_source_index

/-- `SourceManager.next_source` (lines 246-261): raise `ValueError("No sources
available")` on an empty list; otherwise advance the index by one modulo the
list length, read the source at the new index, record the index for the
debounced save, and return the source. -/
def next_source (st : SMState) : Except String (SMState × MediaSource) :=
  if st.sources.isEmpty then Except.error "No sources available"
  else
    let idx : Int := (st.current_source_index + 1) % (st.sources.length : Int)
    match st.sources[idx.toNat]? with
    | some s =>
      let d := save_current_index_to_db_sync st.debounce idx
      Except.ok ({ st with current_source_index := idx, debounce := d.1 }, s)
    | none => Except.error "IndexError"

/-- `SourceManager.previous_source` (lines 263-278): as `next_source` but the
index moves back by one, with Python `%` keeping it in `[0, len)`. -/
def previous_source (st : SMState) : Except String (SMState × MediaSource) :=
  if st.sources.isEmpty then Except.error "No sources available"
  else
    let idx : Int := (st.current_source_index - 1) % (st.sources.length : Int)
    match st.sources[idx.toNat]? with
    | some s =>
      let d := save_current_index_to_db_sync st.debounce idx
      Except.ok ({ st with current_source_index := idx, debounce := d.1 }, s)
    | none => Except.error "IndexError"

/-! ### Player service orchestrator: cycle_source
(src/player/service.py) -/

/-- The two playback backends a source maps to. -/
inductive Backend where
  | mopidy
  | youtube
deriving DecidableEq, Repr

/-- Which backend handles each source type (per the dispatch in
`PlayerService._load_current_source` and `cycle_source`). -/
def backendOf : SourceType → Backend
  | .spotify_playlist => .mopidy
  | .youtube_channel => .youtube

/-- Externally visible effects of `PlayerService` methods, in the order the
code performs them: enqueue STOP on the Mopidy queue / `youtube_client.stop()`
(`stopCmd`), write `state.current_source` under the lock (`setActive`),
the synchronous volume call, the LOAD_PLAYLIST command, the play-channel
command, and the announcement command. -/
inductive PlayerEvent where
  | stopCmd (b : Backend)
  | setActive (kind : String)
  | setVolumeSync (level : Int)
  | loadPlaylist (uri : String)
  | playChannel (uri : String)
  | announce (text : String)
deriving DecidableEq, Repr

/-- `PlayerService._load_current_source` (service.py lines 93-137): look up the
current source; do nothing when there is none; in dev mode only set the active
source kind; otherwise set the kind and either force volume 100 and enqueue a
playlist load (Mopidy) or issue a play-channel command (YouTube). -/
def load_current_source (devMode : Bool) (sm : SMState) : List PlayerEvent :=
  match get_current_source sm with
  | none => []
  | some s =>
    if devMode then
      match s.type with
      | .spotify_playlist => [.setActive "playlist"]
      | .youtube_channel => [.setActive "stream"]
    else
      match s.type with
      | .spotify_playlist => [.setActive "playlist", .setVolumeSync 100, .loadPlaylist s.uri]
      | .youtube_channel => [.setActive "stream", .playChannel s.uri]

/-- `PlayerService.cycle_source` (service.py lines 189-212), step by step:
(1) `new_source = self.source_manager.next_source()` — this advances the
index; (2) announce `f"{source_type}, {name}"` for the new source;
(3) `old_source = self.source_manager.get_current_source()` — read *after*
the index moved; (4) send a stop to `old_source`'s backend; (5) load the
current source.  Returns the updated source-manager state and the emitted
events. -/
def cycle_source (devMode : Bool) (sm : SMState) :
    Except String (SMState × List PlayerEvent) :=
  match next_source sm with
  | .error e => .error e
  | .ok (sm1, new_source) =>
    let announceEvt := PlayerEvent.announce (new_source.source_type ++ ", " ++ new_source.name)
    let old_source := get_current_source sm1
    let stopEvts :=
      match old_source with
      | some os => [PlayerEvent.stopCmd (backendOf os.type)]
      | none => []
    .ok (sm1, announceEvt :: (stopEvts ++ load_current_source devMode sm1))

/-! ### Sequencer worker: reconnect backoff, command queue, volume paths
(src/player/mopidy_thread.py, src/player/mopidy_client.py) -/

/-- `CommandType` enum of the Mopidy worker. -/
inductive CommandType where
  | play | pause | toggle | next | previous | stop
  | load_playlist | get_volume | set_volume | shutdown
deriving DecidableEq, Repr

/-- The connection-related fields of `MopidyThread` that the reconnect logic
touches.  Delays are embedded in `ℚ`; every reachable value 5·1.5^k capped at
60 has a power-of-two denominator and a numerator below 2^53, so the Python
float arithmetic is exact and agrees with `ℚ`. -/
structure MopidyConnState where
  connected : Bool
  reconnect_delay : ℚ
deriving DecidableEq, Repr

/-- `MopidyThread.__init__` (lines 63-64): base reconnect delay 5.0. -/
def mopidyBaseDelay : ℚ := 5

/-- `MopidyThread.__init__` (line 64): `max_reconnect_delay = 60.0`. -/
def mopidyMaxReconnectDelay : ℚ := 60

/-- The connection-handling head of one iteration of `MopidyThread.run`
(lines 82-94), given whether the `_connect()` attempt succeeds: while
disconnected, a failed attempt sleeps `reconnect_delay` and then sets
`reconnect_delay = min(reconnect_delay * 1.5, max_reconnect_delay)`; a
successful attempt resets `reconnect_delay = 5.0`.  When already connected
the block is skipped. -/
def connectStep (attemptSucceeds : Bool) (st : MopidyConnState) : MopidyConnState :=
  if st.connected then st
  else if attemptSucceeds then
    { connected := true, reconnect_delay := mopidyBaseDelay }
  else
    { connected := false,
      reconnect_delay := min (st.reconnect_delay * (3 / 2)) mopidyMaxReconnectDelay }

/-- All three workers build their queue as `queue.Queue()`, i.e. with the
default `maxsize` of 0; in Python `maxsize <= 0` means the queue is
unbounded. -/
def workerQueueMaxsize : Nat := 0

/-- A queue with this `maxsize` can actually become full. -/
def queueIsBounded (maxsize : Nat) : Prop := 0 < maxsize

/-- Python `queue.Queue.put_nowait`: fails (raises `queue.Full`, embedded as
`none`) exactly when the queue is bounded and at capacity; otherwise appends
the item. -/
def put_nowait {α : Type} (maxsize : Nat) (q : List α) (c : α) : Option (List α) :=
  if 0 < maxsize ∧ maxsize ≤ q.length then none else some (q ++ [c])

/-- `send_command` as written identically in `MopidyThread` (lines 261-266),
`YouTubeThread` (lines 560-565) and `AnnouncementThread` (lines 273-278):
`put_nowait` the command; on `queue.Full` drop it and log a warning.  Returns
the resulting queue and whether the command was dropped; nothing is raised to
the caller in either case. -/
def send_command {α : Type} (maxsize : Nat) (q : List α) (c : α) : List α × Bool :=
  match put_nowait maxsize q c with
  | some q2 => (q2, false)
  | none => (q, true)

/-- `MopidyThread.get_volume` (lines 268-294).  The wait on the one-shot
result queue with `timeout` is embedded by its outcome `arrival`:
`some r` when the worker put the result `r` (itself an `Optional[int]` from
`MopidyClient.get_volume`) on the queue within the timeout, `none` when
`queue.Empty` was raised after the timeout.  Disconnected: return `None`
without waiting at all. -/
def mopidy_get_volume (connected : Bool) (arrival : Option (Option Int)) :
    Option Int :=
  if !connected then none
  else
    match arrival with
    | some r => r
    | none => none

/-- The clamp in `PlayerService.set_volume` (service.py line 247):
`volume = max(0, min(100, volume))` before dispatching. -/
def service_set_volume_clamp (volume : Int) : Int := max 0 (min 100 volume)

/-- The clamp in `MopidyThread.set_volume_sync` (mopidy_thread.py line 313). -/
def set_volume_sync_clamp (volume : Int) : Int := max 0 (min 100 volume)

/-- The clamp in `MopidyClient.set_volume` (mopidy_client.py line 229), the
last step before `self.client.setvol(volume)`. -/
def client_set_volume_clamp (volume : Int) : Int := max 0 (min 100 volume)

/-- The value reaching `setvol` on the synchronous path:
`PlayerService.set_volume(v, sync=True)` clamps, calls
`MopidyThread.set_volume_sync` which clamps, which calls
`MopidyClient.set_volume` which clamps before `setvol`. -/
def volume_sent_sync (v : Int) : Int :=
  client_set_volume_clamp (set_volume_sync_clamp (service_set_volume_clamp v))

/-- The value reaching `setvol` on the asynchronous path:
`PlayerService.set_volume(v, sync=False)` clamps and enqueues a SET_VOLUME
command; `MopidyThread._process_command` passes the payload unchanged to
`MopidyClient.set_volume`, which clamps before `setvol`. -/
def volume_sent_async (v : Int) : Int :=
  client_set_volume_clamp (service_set_volume_clamp v)

/-! ### Announcer worker: interrupt-and-replace playback
(src/player/announcement_thread.py) -/

/-- The process-owning field of `AnnouncementThread`: `current_process` is the
handle of the running mpv playback, embedded as a numeric pid; `next_pid`
numbers the processes `subprocess.Popen` would hand out. -/
structure AnnState where
  current_process : Option Nat
  next_pid : Nat
deriving DecidableEq, Repr

/-- Subprocess effects performed by the announcer, in program order.
`killProc` stands for the graceful-terminate / wait / forced-kill sequence of
`_stop_playback` (lines 237-248); `spawnProc` for the `subprocess.Popen` call
in `_play_audio`. -/
inductive AnnEvent where
  | killProc (pid : Nat)
  | spawnProc (pid : Nat)
deriving DecidableEq, Repr

/-- `AnnouncementThread._stop_playback` (lines 237-248): if a playback process
exists, terminate it (then kill after the grace period) and clear
`current_process`. -/
def ann_stop_playback (st : AnnState) : AnnState × List AnnEvent :=
  match st.current_process with
  | some p => ({ st with current_process := none }, [.killProc p])
  | none => (st, [])

/-- `AnnouncementThread._play_audio` (lines 208-248 region): first
`_stop_playback()` (interrupt capability), then spawn a new mpv process for
the artifact and store its handle. -/
def ann_play_audio (st : AnnState) : AnnState × List AnnEvent :=
  let r := ann_stop_playback st
  let pid := r.1.next_pid
  (⟨some pid, pid + 1⟩, r.2 ++ [.spawnProc pid])

/-- `AnnouncementThread._announce` (lines 250-271): generate (or fetch cached)
audio; on success play it, on synthesis failure only log — no playback change.
`genOk` is whether `_generate_audio` returned a path. -/
def ann_announce (genOk : Bool) (st : AnnState) : AnnState × List AnnEvent :=
  if genOk then ann_play_audio st else (st, [])

/-- Net number of live announcement processes after a list of subprocess
events (spawn: +1, kill: -1). -/
def liveCount : List AnnEvent → Int
  | [] => 0
  | .spawnProc _ :: rest => liveCount rest + 1
  | .killProc _ :: rest => liveCount rest - 1

/-- Every prefix of the event list leaves at most one live process. -/
def allPrefixesAtMostOne (evs : List AnnEvent) : Bool :=
  (List.range (evs.length + 1)).all fun n => liveCount (evs.take n) ≤ 1

/-! ## Theorems -/

/-- A worker that keeps failing to connect stays disconnected. -/
lemma iterate_fail_connected (d : ℚ) (k : Nat) :
    ((connectStep false)^[k] (⟨false, d⟩ : MopidyConnState)).connected = false := by
  induction k with
  | zero => rfl
  | succ k ih =>
    rw [Function.iterate_succ_apply']
    simp [connectStep, ih]

/-- Claim C3: while the Sequencer Worker is disconnected, each failed
connection attempt updates the reconnect delay by
`delay' = min(delay * 1.5, max_delay)` with `max_delay = 60.0` and base delay
5.0, so along any run of consecutive failures from the initial state the
delays obey `delay_{i+1} = min(delay_i * 1.5, 60)`; the first successful
connection resets the delay to the base value. -/
theorem c3_reconnect_backoff (st : MopidyConnState) (h : st.connected = false) :
    (connectStep false st).reconnect_delay
        = min (st.reconnect_delay * (3 / 2)) mopidyMaxReconnectDelay
    ∧ (connectStep false st).connected = false
    ∧ connectStep true st = ⟨true, mopidyBaseDelay⟩
    ∧ (∀ k : Nat,
        ((connectStep false)^[k + 1] (⟨false, mopidyBaseDelay⟩ : MopidyConnState)).reconnect_delay
          = min
              (((connectStep false)^[k]
                  (⟨false, mopidyBaseDelay⟩ : MopidyConnState)).reconnect_delay * (3 / 2))
              mopidyMaxReconnectDelay)
    ∧ mopidyBaseDelay = 5 ∧ mopidyMaxReconnectDelay = 60 := by
  refine ⟨?_, ?_, ?_, ?_, rfl, rfl⟩
  · simp [connectStep, h]
  · simp [connectStep, h]
  · simp [connectStep, h]
  · intro k
    rw [Function.iterate_succ_apply']
    simp [connectStep, iterate_fail_connected]

/-- Witness for C3 at the initial state (disconnected, base delay). -/
theorem c3_reconnect_backoff_witness :
    (connectStep false ⟨false, 5⟩).reconnect_delay
        = min ((5 : ℚ) * (3 / 2)) mopidyMaxReconnectDelay :=
  (c3_reconnect_backoff ⟨false, 5⟩ rfl).1

/-- Claim C7: a synchronous volume request made while the backend is
disconnected returns `None` without waiting; when connected, a result that
arrives within the timeout is returned and a timeout (`queue.Empty`) yields
`None` — the wait is bounded by the timeout in all cases. -/
theorem c7_get_volume_bounded (arrival : Option (Option Int)) (v : Option Int) :
    mopidy_get_volume false arrival = none
    ∧ mopidy_get_volume true none = none
    ∧ mopidy_get_volume true (some v) = v := by
  simp [mopidy_get_volume]

/-- Claim C8 counterexample: the worker command queues are created with the
default `maxsize` of 0, which in Python means unbounded — the claim that the
command queue is bounded is false, and even a queue holding 10 commands
accepts the next one instead of dropping it. -/
theorem c8_counterexample :
    ¬ queueIsBounded workerQueueMaxsize
    ∧ send_command workerQueueMaxsize (List.replicate 10 CommandType.stop) CommandType.next
        = (List.replicate 10 CommandType.stop ++ [CommandType.next], false) := by
  exact ⟨by simp [queueIsBounded, workerQueueMaxsize], rfl⟩

/-- Claim C8 as amended: enqueue (`send_command`) never blocks and the caller
never receives an error; the queue is unbounded (default `maxsize` 0), so the
drop-newest-on-full branch is unreachable and every command is appended. -/
theorem c8_enqueue_never_fails {α : Type} (q : List α) (c : α) :
    send_command workerQueueMaxsize q c = (q ++ [c], false) := by
  simp [send_command, put_nowait, workerQueueMaxsize]

/-- Claim C9: on both the synchronous and the asynchronous `set_volume` path,
the value that reaches the sequencer backend's `setvol` equals
`max(0, min(100, level))` — within `[0, 100]`, with negative levels sent as 0
and levels above 100 sent as 100. -/
theorem c9_volume_clamped (v : Int) :
    0 ≤ volume_sent_sync v ∧ volume_sent_sync v ≤ 100
    ∧ volume_sent_sync v = max 0 (min 100 v)
    ∧ volume_sent_async v = max 0 (min 100 v) := by
  unfold volume_sent_sync volume_sent_async client_set_volume_clamp
    set_volume_sync_clamp service_set_volume_clamp
  omega

/-- `getLast?` of a cons in terms of `getLastD`. -/
lemma getLast?_cons_eq (a : Int) (l : List Int) :
    (a :: l).getLast? = some (l.getLastD a) := by
  induction l generalizing a with
  | nil => rfl
  | cons b t ih => rw [List.getLastD_cons]; exact ih b

/-- Once a flush is scheduled with index `i0` pending, further rotations only
overwrite the pending index (keeping the last one) and schedule nothing. -/
lemma rotateBurst_scheduled (l : List Int) (i0 : Int) :
    rotateBurst ⟨some i0, true⟩ l = (⟨some (l.getLastD i0), true⟩, 0) := by
  induction l generalizing i0 with
  | nil => simp [rotateBurst]
  | cons a t ih =>
    simp only [rotateBurst, save_current_index_to_db_sync, if_pos, ih a,
      List.getLastD_cons]
    norm_num

/-- Claim C5: any burst of rotations all falling inside one debounce window
(modelled as `rotateBurst` from the idle debounce state, followed by the one
flush) schedules exactly one flush, and that flush performs exactly one
database write, of the index recorded by the final rotation; the rotations
after the first update only the pending index. -/
theorem c5_debounced_single_write (l : List Int) (x : Int)
    (h : l.getLast? = some x) :
    (rotateBurst debounceIdle l).2 = 1
    ∧ debounced_save (rotateBurst debounceIdle l).1 = (debounceIdle, [x]) := by
  cases l with
  | nil => simp at h
  | cons a t =>
    rw [getLast?_cons_eq] at h
    have hx : t.getLastD a = x := by injection h
    have hstep : rotateBurst debounceIdle (a :: t) = (⟨some (t.getLastD a), true⟩, 1) := by
      simp [rotateBurst, save_current_index_to_db_sync, debounceIdle,
        rotateBurst_scheduled, ← List.getLastD_eq_getLast?]
    rw [hstep, hx]
    exact ⟨rfl, rfl⟩

/-- Witness for C5: five rotations 1,2,3,4,5 in one window give one scheduled
flush, which writes exactly `[5]`. -/
theorem c5_debounced_single_write_witness :
    (rotateBurst debounceIdle [1, 2, 3, 4, 5]).2 = 1
    ∧ debounced_save (rotateBurst debounceIdle [1, 2, 3, 4, 5]).1
        = (debounceIdle, [5]) :=
  c5_debounced_single_write [1, 2, 3, 4, 5] 5 rfl

/-- Claim C6: processing `announce("A")` and then `announce("B")` (both
syntheses succeeding, A's playback still live), the worker first spawns A's
process, and while handling B it terminates A's process (graceful terminate
with forced kill after the grace period, the `killProc` event) strictly
before spawning B's process; afterwards B's process is the only one
registered, and no prefix of the combined subprocess trace ever has more
than one live process. -/
theorem c6_announce_interrupt_and_replace (st : AnnState)
    (h : st.current_process = none) :
    (ann_announce true st).2 = [AnnEvent.spawnProc st.next_pid]
    ∧ (ann_announce true st).1.current_process = some st.next_pid
    ∧ (ann_announce true (ann_announce true st).1).2
        = [AnnEvent.killProc st.next_pid, AnnEvent.spawnProc (st.next_pid + 1)]
    ∧ (ann_announce true (ann_announce true st).1).1.current_process
        = some (st.next_pid + 1)
    ∧ allPrefixesAtMostOne
        ((ann_announce true st).2 ++ (ann_announce true (ann_announce true st).1).2)
        = true := by
  refine ⟨?_, ?_, ?_, ?_, ?_⟩ <;>
    simp [ann_announce, ann_play_audio, ann_stop_playback, h,
      allPrefixesAtMostOne, liveCount, List.range_succ]

/-- Witness for C6 from a fresh announcer state. -/
theorem c6_announce_interrupt_and_replace_witness :
    (ann_announce true ⟨none, 0⟩).2 = [AnnEvent.spawnProc 0]
    ∧ (ann_announce true ⟨none, 0⟩).1.current_process = some 0
    ∧ (ann_announce true (ann_announce true ⟨none, 0⟩).1).2
        = [AnnEvent.killProc 0, AnnEvent.spawnProc 1]
    ∧ (ann_announce true (ann_announce true ⟨none, 0⟩).1).1.current_process
        = some 1
    ∧ allPrefixesAtMostOne
        ((ann_announce true ⟨none, 0⟩).2
          ++ (ann_announce true (ann_announce true ⟨none, 0⟩).1).2) = true := by
  have := c6_announce_interrupt_and_replace ⟨none, 0⟩ rfl
  simpa using this

/-- The index invariant of `SourceManager`: the current index is in
`[0, len(sources))`. -/
def smInv (st : SMState) : Prop :=
  0 ≤ st.current_source_index ∧ st.current_source_index < (st.sources.length : Int)

instance (st : SMState) : Decidable (smInv st) := by unfold smInv; infer_instance

/-- On a non-empty source list, `next_source` succeeds: it wraps the index
with modulo arithmetic, keeps the list, returns the element at the new index,
and the new index is in bounds. -/
lemma next_source_ok (st : SMState) (h : st.sources ≠ []) :
    ∃ st2 s, next_source st = Except.ok (st2, s)
    ∧ st2.sources = st.sources
    ∧ st2.current_source_index
        = (st.current_source_index + 1) % (st.sources.length : Int)
    ∧ st2.sources[st2.current_source_index.toNat]? = some s
    ∧ 0 ≤ st2.current_source_index
    ∧ st2.current_source_index < (st2.sources.length : Int) := by
  have hn : 0 < st.sources.length := List.length_pos.mpr h
  have hempty : st.sources.isEmpty = false := by
    cases hs : st.sources with
    | nil => exact absurd hs h
    | cons a t => rfl
  set idx : Int := (st.current_source_index + 1) % (st.sources.length : Int) with hidx
  have h0 : 0 ≤ idx := Int.emod_nonneg _ (by positivity)
  have hlt : idx < (st.sources.length : Int) := Int.emod_lt_of_pos _ (by exact_mod_cast hn)
  have htn : idx.toNat < st.sources.length := by omega
  have hgetel : st.sources[idx.toNat]? = some (st.sources.get ⟨idx.toNat, htn⟩) := by
    rw [List.getElem?_eq_getElem htn]
    rfl
  refine ⟨⟨st.sources, idx, (save_current_index_to_db_sync st.debounce idx).1⟩,
    st.sources.get ⟨idx.toNat, htn⟩, ?_, rfl, rfl, hgetel, h0, hlt⟩
  simp only [next_source, hempty, Bool.false_eq_true, if_false, ← hidx, hgetel]

/-- On a non-empty source list, `previous_source` succeeds with the index
moved back by one modulo the list length; Python `%` keeps it in bounds. -/
lemma previous_source_ok (st : SMState) (h : st.sources ≠ []) :
    ∃ st2 s, previous_source st = Except.ok (st2, s)
    ∧ st2.sources = st.sources
    ∧ st2.current_source_index
        = (st.current_source_index - 1) % (st.sources.length : Int)
    ∧ st2.sources[st2.current_source_index.toNat]? = some s
    ∧ 0 ≤ st2.current_source_index
    ∧ st2.current_source_index < (st2.sources.length : Int) := by
  have hn : 0 < st.sources.length := List.length_pos.mpr h
  have hempty : st.sources.isEmpty = false := by
    cases hs : st.sources with
    | nil => exact absurd hs h
    | cons a t => rfl
  set idx : Int := (st.current_source_index - 1) % (st.sources.length : Int) with hidx
  have h0 : 0 ≤ idx := Int.emod_nonneg _ (by positivity)
  have hlt : idx < (st.sources.length : Int) := Int.emod_lt_of_pos _ (by exact_mod_cast hn)
  have htn : idx.toNat < st.sources.length := by omega
  have hgetel : st.sources[idx.toNat]? = some (st.sources.get ⟨idx.toNat, htn⟩) := by
    rw [List.getElem?_eq_getElem htn]
    rfl
  refine ⟨⟨st.sources, idx, (save_current_index_to_db_sync st.debounce idx).1⟩,
    st.sources.get ⟨idx.toNat, htn⟩, ?_, rfl, rfl, hgetel, h0, hlt⟩
  simp only [previous_source, hempty, Bool.false_eq_true, if_false, ← hidx, hgetel]

/-- Claim C4: on an empty source list `get_current_source` returns `None` and
`next_source` / `previous_source` fail with the explicit "No sources
available" error (never an index error); on a non-empty list both rotations
wrap the index with modulo arithmetic and return the source stored at the new
index. -/
theorem c4_empty_fails_nonempty_wraps :
    (∀ st : SMState, st.sources = [] →
        get_current_source st = none
        ∧ next_source st = Except.error "No sources available"
        ∧ previous_source st = Except.error "No sources available")
    ∧ (∀ st : SMState, st.sources ≠ [] → ∃ st2 s,
        next_source st = Except.ok (st2, s)
        ∧ st2.current_source_index
            = (st.current_source_index + 1) % (st.sources.length : Int)
        ∧ st2.sources = st.sources
        ∧ st2.sources[st2.current_source_index.toNat]? = some s)
    ∧ (∀ st : SMState, st.sources ≠ [] → ∃ st2 s,
        previous_source st = Except.ok (st2, s)
        ∧ st2.current_source_index
            = (st.current_source_index - 1) % (st.sources.length : Int)
        ∧ st2.sources = st.sources
        ∧ st2.sources[st2.current_source_index.toNat]? = some s) := by
  refine ⟨?_, ?_, ?_⟩
  · intro st h
    refine ⟨?_, ?_, ?_⟩ <;> simp [get_current_source, next_source, previous_source, h]
  · intro st h
    obtain ⟨st2, s, heq, hsrc, hidx, hget, _, _⟩ := next_source_ok st h
    exact ⟨st2, s, heq, hidx, hsrc, hget⟩
  · intro st h
    obtain ⟨st2, s, heq, hsrc, hidx, hget, _, _⟩ := previous_source_ok st h
    exact ⟨st2, s, heq, hidx, hsrc, hget⟩

/-- Witness for C4 at the empty source manager. -/
theorem c4_empty_fails_nonempty_wraps_witness :
    get_current_source ⟨[], 0, debounceIdle⟩ = none
    ∧ next_source ⟨[], 0, debounceIdle⟩ = Except.error "No sources available"
    ∧ previous_source ⟨[], 0, debounceIdle⟩ = Except.error "No sources available" :=
  c4_empty_fails_nonempty_wraps.1 ⟨[], 0, debounceIdle⟩ rfl

/-- Claim C10: constructing `SourceManager` with a non-empty list and a
non-negative starting index establishes `0 <= current_index < len(sources)`
(an out-of-bounds index is reset to 0), and every successful `next_source`
and `previous_source` call preserves that invariant. -/
theorem c10_index_invariant (sources : List MediaSource) (i : Int)
    (hne : sources ≠ []) (hi : 0 ≤ i) :
    smInv (sourceManager_init sources i)
    ∧ (∀ st st2 s, next_source st = Except.ok (st2, s) → smInv st2)
    ∧ (∀ st st2 s, previous_source st = Except.ok (st2, s) → smInv st2) := by
  refine ⟨?_, ?_, ?_⟩
  · have hn : 0 < sources.length := List.length_pos.mpr hne
    unfold sourceManager_init smInv
    dsimp only
    split <;> constructor <;> omega
  · intro st st2 s hok
    have hne2 : st.sources ≠ [] := by
      intro h0
      simp [next_source, h0] at hok
    obtain ⟨st2', s', heq, _, _, _, h0, hlt⟩ := next_source_ok st hne2
    rw [heq] at hok
    have : st2' = st2 := by
      have := Except.ok.inj hok
      exact (Prod.mk.injEq _ _ _ _ ▸ this).1
    subst this
    exact ⟨h0, hlt⟩
  · intro st st2 s hok
    have hne2 : st.sources ≠ [] := by
      intro h0
      simp [previous_source, h0] at hok
    obtain ⟨st2', s', heq, _, _, _, h0, hlt⟩ := previous_source_ok st hne2
    rw [heq] at hok
    have : st2' = st2 := by
      have := Except.ok.inj hok
      exact (Prod.mk.injEq _ _ _ _ ▸ this).1
    subst this
    exact ⟨h0, hlt⟩

/-- Witness for C10: a 2-source manager started at out-of-bounds index 7 is
reset into bounds. -/
theorem c10_index_invariant_witness :
    smInv (sourceManager_init
      [⟨.spotify_playlist, "Playlist A", "spotify:playlist:a", "music"⟩,
       ⟨.youtube_channel, "Channel B", "https://youtube.example/b", "music"⟩] 7) :=
  (c10_index_invariant _ 7 (by decide) (by decide)).1

/-- If position `j` (as a loop offset at or after `i`) holds the first
unwatched video from offset `i` on, the scan loop started at `i` stops at
`(cur + j) % len`. -/
lemma scanFrom_eq_some (videos : List Video) (watched : List String) (cur : Nat) :
    ∀ (d i j : Nat), videos.length - i = d → i ≤ j → j < videos.length →
      (∀ w, videos[(cur + j) % videos.length]? = some w →
          watched.contains w.id = false) →
      (∀ k, i ≤ k → k < j → ∀ w, videos[(cur + k) % videos.length]? = some w →
          watched.contains w.id = true) →
      scanFrom videos watched cur i = some ((cur + j) % videos.length) := by
  intro d
  induction d with
  | zero => intro i j hd hij hj _ _; omega
  | succ d ih =>
    intro i j hd hij hjlen hunw hwat
    have hi : i < videos.length := by omega
    have hidx : (cur + i) % videos.length < videos.length := Nat.mod_lt _ (by omega)
    have hget : videos[(cur + i) % videos.length]?
        = some (videos.get ⟨(cur + i) % videos.length, hidx⟩) := by
      rw [List.getElem?_eq_getElem hidx]
      rfl
    rw [scanFrom]
    simp only [dif_pos hi, hget]
    rcases Nat.eq_or_lt_of_le hij with heq | hlt
    · subst heq
      rw [hunw _ hget]
      simp
    · rw [hwat i le_rfl hlt _ hget]
      simp only [if_pos]
      exact ih (i + 1) j (by omega) (by omega) hjlen hunw
        (fun k hk1 hk2 => hwat k (by omega) hk2)

/-- When every video is watched, the scan loop falls through. -/
lemma scanFrom_eq_none (videos : List Video) (watched : List String) (cur : Nat)
    (hall : ∀ v ∈ videos, watched.contains v.id = true) :
    ∀ (d i : Nat), videos.length - i = d → scanFrom videos watched cur i = none := by
  intro d
  induction d with
  | zero =>
    intro i hd
    rw [scanFrom]
    have : ¬ i < videos.length := by omega
    simp [this]
  | succ d ih =>
    intro i hd
    have hi : i < videos.length := by omega
    have hidx : (cur + i) % videos.length < videos.length := Nat.mod_lt _ (by omega)
    have hget : videos[(cur + i) % videos.length]?
        = some (videos.get ⟨(cur + i) % videos.length, hidx⟩) := by
      rw [List.getElem?_eq_getElem hidx]
      rfl
    rw [scanFrom]
    simp only [dif_pos hi, hget]
    rw [hall _ (videos.get_mem _ _)]
    simp only [if_pos]
    exact ih (i + 1) (by omega)

/-- Claim C2: on a non-empty video list, selection scans forward circularly
from the current index and returns the first video whose id is not in the
watched set, setting the index to its position; when every id is watched it
resets the index to 0 and returns the first video; and with an empty watched
set a selection starting at index 0 returns the video at index 0. -/
theorem c2_video_selection (videos : List Video) (watched : List String)
    (cur : Nat) (hne : videos ≠ []) :
    (∀ (j : Nat) (v : Video), j < videos.length →
        videos[(cur + j) % videos.length]? = some v →
        watched.contains v.id = false →
        (∀ (k : Nat) (w : Video), k < j →
            videos[(cur + k) % videos.length]? = some w →
            watched.contains w.id = true) →
        get_next_unwatched_video ⟨videos, cur, watched⟩
          = (some v, ⟨videos, (cur + j) % videos.length, watched⟩))
    ∧ ((∀ v ∈ videos, watched.contains v.id = true) →
        get_next_unwatched_video ⟨videos, cur, watched⟩
          = (videos[0]?, ⟨videos, 0, watched⟩))
    ∧ (watched = [] →
        get_next_unwatched_video ⟨videos, 0, []⟩ = (videos[0]?, ⟨videos, 0, []⟩)) := by
  have hlen : 0 < videos.length := List.length_pos.mpr hne
  obtain ⟨v0, rest, rfl⟩ : ∃ v0 rest, videos = v0 :: rest := by
    cases videos with
    | nil => exact absurd rfl hne
    | cons a t => exact ⟨a, t, rfl⟩
  refine ⟨?_, ?_, ?_⟩
  · intro j v hj hv hunw hwat
    have hscan : scanFrom (v0 :: rest) watched cur 0
        = some ((cur + j) % (v0 :: rest).length) := by
      refine scanFrom_eq_some (v0 :: rest) watched cur (v0 :: rest).length 0 j rfl
        (Nat.zero_le _) hj ?_ ?_
      · intro w hw
        rw [hv] at hw
        cases hw
        assumption
      · intro k _ hk w hw
        exact hwat k w hk hw
    simp only [get_next_unwatched_video, hscan, hv]
  · intro hall
    have hscan : scanFrom (v0 :: rest) watched cur 0 = none :=
      scanFrom_eq_none (v0 :: rest) watched cur hall (v0 :: rest).length 0 rfl
    simp only [get_next_unwatched_video, hscan]
    simp
  · intro hw
    subst hw
    have hv0 : (v0 :: rest)[(0 + 0) % (v0 :: rest).length]? = some v0 := by
      simp
    have hscan : scanFrom (v0 :: rest) [] 0 0
        = some ((0 + 0) % (v0 :: rest).length) := by
      refine scanFrom_eq_some (v0 :: rest) [] 0 (v0 :: rest).length 0 0 rfl
        le_rfl hlen ?_ ?_
      · intro w hw
        rfl
      · intro k hk1 hk2
        omega
    simp only [get_next_unwatched_video, hscan]
    simp

/-- The 3-video list used by the C2 witness. -/
def demoVideos : List Video :=
  [⟨"a", "ta", "ua"⟩, ⟨"b", "tb", "ub"⟩, ⟨"c", "tc", "uc"⟩]

/-- Witness for C2: with all three demo videos watched, selection from index 1
loops back to index 0 and returns the first video. -/
theorem c2_video_selection_witness :
    get_next_unwatched_video ⟨demoVideos, 1, ["a", "b", "c"]⟩
      = (demoVideos[0]?, ⟨demoVideos, 0, ["a", "b", "c"]⟩) :=
  (c2_video_selection demoVideos ["a", "b", "c"] 1 (by decide)).2.1 (by decide)

/-- The 2-source list (Spotify playlist then YouTube channel) exercising the
`cycle_source` transition Spotify → YouTube. -/
def c1Sources : List MediaSource :=
  [⟨.spotify_playlist, "Playlist A", "spotify:playlist:a", "music"⟩,
   ⟨.youtube_channel, "Channel B", "https://youtube.example/b", "music"⟩]

/-- Source-manager state before the `cycle_source` call: index 0, so the
Spotify playlist (Mopidy backend) is the active source. -/
def c1Start : SMState := ⟨c1Sources, 0, debounceIdle⟩

/-- Claim C1 fails on the code: `cycle_source` calls `next_source()` first and
only then reads `old_source = get_current_source()`, which at that point is
already the *new* source.  Starting from the Spotify playlist (Mopidy is the
backend of the source active before the call), the emitted trace announces
the new source and sends the stop to the YouTube backend — the backend of the
new source — and contains no stop for the Mopidy backend at all, so the
previously active backend is never stopped before the new source is loaded. -/
theorem c1_stop_sent_to_wrong_backend :
    (get_current_source c1Start).map (fun s => backendOf s.type)
        = some Backend.mopidy
    ∧ cycle_source false c1Start
        = Except.ok (⟨c1Sources, 1, ⟨some 1, true⟩⟩,
            [PlayerEvent.announce "music, Channel B",
             PlayerEvent.stopCmd Backend.youtube,
             PlayerEvent.setActive "stream",
             PlayerEvent.playChannel "https://youtube.example/b"])
    ∧ PlayerEvent.stopCmd Backend.mopidy ∉
        [PlayerEvent.announce "music, Channel B",
         PlayerEvent.stopCmd Backend.youtube,
         PlayerEvent.setActive "stream",
         PlayerEvent.playChannel "https://youtube.example/b"] := by
  refine ⟨rfl, rfl, by decide⟩

end Rodrigo
